import Mathlib

/-!
Verification of the agent-mail CLI core: the local session registry
(`cli.py`: `_read_session`, `_write_session`, `_clear_session`,
`_check_session_conflict`, `session_heartbeat`), the fast-read store's
dependency/delete logic (`database.py`: `agent_dependencies`,
`delete_agent`), the batch `delete` command, and the `context` aggregator.

The embedding is shallow: timestamps are integers (ISO timestamp string
comparison on equal-format strings agrees with chronological order),
a session file's parse outcome is an explicit datatype, the process
environment (own pid, parent pid, `ps` walk outcome, set of live pids) is
an explicit structure, and Python exceptions that escape to the caller are
modelled as `Except` errors.
-/

namespace AgentMail

/-- Outcome of the `expires_at` field of a session-file JSON object:
the key may be absent (`data.get` yields `""`, whose parse raises a caught
`ValueError`), hold a non-string (`.replace` raises an uncaught
`AttributeError`), hold an unparsable string (caught `ValueError`), or hold
a well-formed timestamp. -/
inductive ExpField where
  | absent
  | nonString
  | badFormat
  | good (t : Int)
deriving DecidableEq, Repr

/-- Contents of a parsed session-file JSON object
(`{agent, project, started_at, expires_at, pid}`). -/
structure SessionData where
  agent : String
  project : String
  started_at : Option Int
  expiresField : ExpField
  pid : Option Int
deriving DecidableEq, Repr

/-- State of the per-(project, agent) session file: missing, present but not
JSON (`json.loads` raises a caught `JSONDecodeError`), present and JSON but
not an object (`data.get` on it raises an uncaught `AttributeError`), or a
JSON object. -/
inductive JsonFile where
  | missing
  | notJson
  | nonObject
  | object (s : SessionData)
deriving DecidableEq, Repr

/-- Embedding of `_read_session` (cli.py lines 97-111). Returns the session
data (or `none`) together with the resulting file state; an expired file is
deleted. `JSONDecodeError`, `ValueError` and `OSError` are caught and give
`none`; an `AttributeError` (non-object JSON, or non-string `expires_at`)
escapes, modelled as `Except.error`. -/
def read_session (file : JsonFile) (now : Int) :
    Except Unit (Option SessionData × JsonFile) :=
  match file with
  | .missing => .ok (none, .missing)
  | .notJson => .ok (none, .notJson)
  | .nonObject => .error ()
  | .object s =>
    match s.expiresField with
    | .absent => .ok (none, .object s)
    | .nonString => .error ()
    | .badFormat => .ok (none, .object s)
    | .good e =>
      if e < now then .ok (none, .missing)
      else .ok (some s, .object s)

/-- Outcome of the `ps -o ppid= -p <ppid>` walk in `_write_session`:
the subprocess call (or the `int` parse) raised, the command exited
non-zero, or it produced a grandparent pid. -/
inductive PsResult where
  | raised
  | failed
  | ok (gp : Int)
deriving DecidableEq, Repr

/-- Process environment of one CLI invocation: own pid (`os.getpid()`),
parent pid (`os.getppid()`), the `ps` walk outcome, and the set of live
pids (`os.kill(p, 0)` succeeds iff `p` is in `alive`). -/
structure Env where
  pid : Int
  ppid : Int
  ps : PsResult
  alive : List Int
deriving DecidableEq, Repr

/-- The stable-ancestor pid computed by `_write_session` (cli.py lines
123-134): the grandparent when the `ps` walk succeeds and yields a pid
greater than 1, the caller's own pid when the walk runs but fails or yields
a pid not greater than 1, and the parent pid when the walk raises. -/
def stable_pid (env : Env) : Int :=
  match env.ps with
  | .raised => env.ppid
  | .failed => env.pid
  | .ok gp => if 1 < gp then gp else env.pid

/-- Embedding of `_write_session` (cli.py lines 114-150): builds the record
with `started_at = now`, `expires_at = now + ttl` and `pid = stable_pid`,
then re-reads the existing file and preserves its `started_at` if a live
session is found, and overwrites the file. A raising re-read propagates. -/
def write_session (env : Env) (projectKey agentName : String)
    (file : JsonFile) (now ttl : Int) :
    Except Unit (SessionData × JsonFile) :=
  match read_session file now with
  | .error e => .error e
  | .ok (existing, _) =>
    let base : SessionData :=
      { agent := agentName, project := projectKey, started_at := some now,
        expiresField := .good (now + ttl), pid := some (stable_pid env) }
    let d :=
      match existing with
      | some e => { base with started_at := some (e.started_at.getD now) }
      | none => base
    .ok (d, .object d)

/-- Embedding of `_clear_session` (cli.py lines 153-159). -/
def clear_session (file : JsonFile) : Bool × JsonFile :=
  match file with
  | .missing => (false, .missing)
  | _ => (true, .missing)

/-- Embedding of `_check_session_conflict` (cli.py lines 162-182): reads
the session; absent session gives no conflict; a stored pid equal to
`os.getpid()` gives no conflict; a truthy stored pid whose process is dead
clears the file and gives no conflict; otherwise the session is returned
as the conflict. -/
def check_session_conflict (env : Env) (file : JsonFile) (now : Int) :
    Except Unit (Option SessionData × JsonFile) :=
  match read_session file now with
  | .error e => .error e
  | .ok (none, f) => .ok (none, f)
  | .ok (some s, f) =>
    if s.pid = some env.pid then .ok (none, f)
    else
      match s.pid with
      | some p =>
        if p ≠ 0 then
          if p ∈ env.alive then .ok (some s, f)
          else .ok (none, (clear_session f).2)
        else .ok (some s, f)
      | none => .ok (some s, f)

/-- Result of the `session heartbeat` command: no active session
(exit 1), an uncaught exception reaching `handle_error` (exit 1), or the
refreshed record and file. -/
inductive HbResult where
  | noSession
  | crashed
  | ok (d : SessionData) (f : JsonFile)
deriving DecidableEq, Repr

/-- Embedding of `session_heartbeat` (cli.py lines 229-265): reads the
session, fails with `noSession` when absent, otherwise refreshes via
`write_session`. -/
def session_heartbeat (env : Env) (projectKey agentName : String)
    (file : JsonFile) (now ttl : Int) : HbResult :=
  match read_session file now with
  | .error _ => .crashed
  | .ok (none, _) => .noSession
  | .ok (some _, f) =>
    match write_session env projectKey agentName f now ttl with
    | .error _ => .crashed
    | .ok (d, f') => .ok d f'

/-- A session-file object whose `expires_at` string is unparsable. -/
def fileBadFormat : SessionData :=
  { agent := "A", project := "P", started_at := some 0,
    expiresField := .badFormat, pid := some 7 }

/-- A session-file object that expired at time 50. -/
def fileExpired : SessionData :=
  { agent := "A", project := "P", started_at := some 0,
    expiresField := .good 50, pid := some 7 }

/-- Claim C7: `_read_session` returns absent for a missing file, for
unparsable JSON, for an unparsable `expires_at`, and for an expired file
(deleting the latter), exactly as claimed — but the claim's final clause
fails: a file whose contents are valid JSON that is not an object (for
example `[]`) makes `data.get("expires_at", "")` raise an uncaught
`AttributeError`, so a read error IS surfaced to the caller on that
corrupted input. -/
theorem read_session_fail_open_violated :
    read_session .missing 100 = .ok (none, .missing) ∧
    read_session .notJson 100 = .ok (none, .notJson) ∧
    read_session (.object fileBadFormat) 100 = .ok (none, .object fileBadFormat) ∧
    read_session (.object fileExpired) 100 = .ok (none, .missing) ∧
    read_session .nonObject 100 = .error () :=
  ⟨rfl, rfl, rfl, rfl, rfl⟩

/-- Environment of a CLI invocation whose `ps` walk finds the long-lived
host process 100 as grandparent: own pid 42, parent shell 10; all three
processes are alive. -/
def envSelf : Env := { pid := 42, ppid := 10, ps := .ok 100, alive := [10, 42, 100] }

/-- The session record `_write_session` produces in `envSelf` at time 0
with ttl 300: the stored pid is the stable ancestor 100, not the writer's
own pid 42. -/
def dSelf : SessionData :=
  { agent := "A", project := "P", started_at := some 0,
    expiresField := .good 300, pid := some 100 }

/-- Claim C1: a process registers (writing its session with the
stable-ancestor pid 100) and immediately runs the conflict check while it
still owns the live, non-expired session — yet the check reports a
conflict, because `_write_session` stores the walked ancestor pid while
`_check_session_conflict` compares the stored pid against `os.getpid()`
(42). The stored pid is NOT the pid the owner's conflict check compares
against its own process id, so self re-registration without `force` is
refused. -/
theorem write_then_check_self_conflict :
    write_session envSelf "P" "A" .missing 0 300 = .ok (dSelf, .object dSelf) ∧
    dSelf.pid = some 100 ∧
    envSelf.pid = 42 ∧
    dSelf.pid ≠ some envSelf.pid ∧
    check_session_conflict envSelf (.object dSelf) 5 =
      .ok (some dSelf, .object dSelf) :=
  ⟨rfl, rfl, rfl, by decide, rfl⟩

/-- Claim C6: for a live, non-expired session record whose stored pid `p`
is truthy and differs from the caller's pid, `_check_session_conflict`
returns the record when `p` is a running process, and — once `p` is no
longer running — deletes the session file and returns absent. -/
theorem check_conflict_liveness (env : Env) (s : SessionData) (p e now : Int)
    (he : s.expiresField = .good e) (hlive : ¬ e < now)
    (hp : s.pid = some p) (hne : p ≠ env.pid) (hp0 : p ≠ 0) :
    (p ∈ env.alive →
      check_session_conflict env (.object s) now = .ok (some s, .object s)) ∧
    (p ∉ env.alive →
      check_session_conflict env (.object s) now = .ok (none, .missing)) := by
  have hpid : ¬ s.pid = some env.pid := by
    rw [hp]
    intro hcontra
    exact hne (Option.some.injEq p env.pid ▸ hcontra)
  constructor <;> intro halive <;>
    simp [check_session_conflict, read_session, he, hlive, hp, hpid, hp0,
      clear_session, halive, hne]

/-- A live session owned by the running process 77, checked by a caller
with pid 42; and the same record checked after process 77 has exited. -/
theorem check_conflict_liveness_witness :
    check_session_conflict
        { pid := 42, ppid := 10, ps := .failed, alive := [42, 77] }
        (.object { agent := "A", project := "P", started_at := some 0,
                   expiresField := .good 300, pid := some 77 }) 5 =
      .ok (some { agent := "A", project := "P", started_at := some 0,
                  expiresField := .good 300, pid := some 77 },
           .object { agent := "A", project := "P", started_at := some 0,
                     expiresField := .good 300, pid := some 77 }) ∧
    check_session_conflict
        { pid := 42, ppid := 10, ps := .failed, alive := [42] }
        (.object { agent := "A", project := "P", started_at := some 0,
                   expiresField := .good 300, pid := some 77 }) 5 =
      .ok (none, .missing) := by
  constructor
  · exact (check_conflict_liveness
      { pid := 42, ppid := 10, ps := .failed, alive := [42, 77] }
      { agent := "A", project := "P", started_at := some 0,
        expiresField := .good 300, pid := some 77 }
      77 300 5 rfl (by decide) rfl (by decide) (by decide)).1 (by decide)
  · exact (check_conflict_liveness
      { pid := 42, ppid := 10, ps := .failed, alive := [42] }
      { agent := "A", project := "P", started_at := some 0,
        expiresField := .good 300, pid := some 77 }
      77 300 5 rfl (by decide) rfl (by decide) (by decide)).2 (by decide)

/-- The record a successful heartbeat leaves behind: `started_at` is the
preserved start time, `expires_at` is recomputed as `now + ttl`, and the
pid is the environment's stable ancestor. -/
def heartbeatData (env : Env) (projectKey agentName : String)
    (st now ttl : Int) : SessionData :=
  { agent := agentName, project := projectKey, started_at := some st,
    expiresField := .good (now + ttl), pid := some (stable_pid env) }

/-- Claim C4 counterexample: two heartbeats against the same live session,
the first at time 0 with ttl 300 (expiry 300), the second at time 10 with
ttl 100 (expiry 110). Both ttls are positive, yet the second call's
resulting `expires_at` (110) is strictly EARLIER than the first call's
(300): `expires_at` is recomputed as `now + ttl`, not advanced
monotonically. -/
theorem heartbeat_expiry_not_monotone :
    session_heartbeat envSelf "P" "A"
        (.object { agent := "A", project := "P", started_at := some 0,
                   expiresField := .good 50, pid := some 100 }) 0 300 =
      .ok (heartbeatData envSelf "P" "A" 0 0 300)
        (.object (heartbeatData envSelf "P" "A" 0 0 300)) ∧
    session_heartbeat envSelf "P" "A"
        (.object (heartbeatData envSelf "P" "A" 0 0 300)) 10 100 =
      .ok (heartbeatData envSelf "P" "A" 0 10 100)
        (.object (heartbeatData envSelf "P" "A" 0 10 100)) ∧
    (heartbeatData envSelf "P" "A" 0 0 300).expiresField = .good 300 ∧
    (heartbeatData envSelf "P" "A" 0 10 100).expiresField = .good 110 ∧
    ¬ (300 : Int) < 110 := by
  refine ⟨rfl, rfl, rfl, rfl, by decide⟩

/-- Claim C4 (amended): each heartbeat recomputes `expires_at = now + ttl`
and preserves `started_at`; consequently, for consecutive heartbeat calls
with the same ttl > 0 at strictly increasing times (the second while the
session is still live), the second call's `expires_at` is strictly later
than the first call's, and `started_at` is unchanged. -/
theorem heartbeat_refresh_monotone (env : Env) (pk an : String)
    (s : SessionData) (st e now₁ now₂ ttl : Int)
    (hst : s.started_at = some st) (he : s.expiresField = .good e)
    (h₁ : ¬ e < now₁) (hlt : now₁ < now₂) (h₂ : ¬ now₁ + ttl < now₂)
    (httl : 0 < ttl) :
    session_heartbeat env pk an (.object s) now₁ ttl =
      .ok (heartbeatData env pk an st now₁ ttl)
        (.object (heartbeatData env pk an st now₁ ttl)) ∧
    session_heartbeat env pk an
        (.object (heartbeatData env pk an st now₁ ttl)) now₂ ttl =
      .ok (heartbeatData env pk an st now₂ ttl)
        (.object (heartbeatData env pk an st now₂ ttl)) ∧
    (heartbeatData env pk an st now₁ ttl).expiresField = .good (now₁ + ttl) ∧
    (heartbeatData env pk an st now₂ ttl).expiresField = .good (now₂ + ttl) ∧
    now₁ + ttl < now₂ + ttl ∧
    (heartbeatData env pk an st now₂ ttl).started_at =
      (heartbeatData env pk an st now₁ ttl).started_at := by
  refine ⟨?_, ?_, rfl, rfl, by omega, rfl⟩
  · simp [session_heartbeat, read_session, write_session, he, h₁,
      heartbeatData, hst]
  · simp [session_heartbeat, read_session, write_session, h₂, heartbeatData]

/-- Two consecutive heartbeats with ttl 300 at times 50 and 60 on a
session started at 10: expiries 350 then 360, start time preserved. -/
theorem heartbeat_refresh_monotone_witness :
    session_heartbeat envSelf "P" "A"
        (.object { agent := "A", project := "P", started_at := some 10,
                   expiresField := .good 100, pid := some 100 }) 50 300 =
      .ok (heartbeatData envSelf "P" "A" 10 50 300)
        (.object (heartbeatData envSelf "P" "A" 10 50 300)) ∧
    session_heartbeat envSelf "P" "A"
        (.object (heartbeatData envSelf "P" "A" 10 50 300)) 60 300 =
      .ok (heartbeatData envSelf "P" "A" 10 60 300)
        (.object (heartbeatData envSelf "P" "A" 10 60 300)) ∧
    (heartbeatData envSelf "P" "A" 10 50 300).expiresField = .good 350 ∧
    (heartbeatData envSelf "P" "A" 10 60 300).expiresField = .good 360 ∧
    (350 : Int) < 360 ∧
    (heartbeatData envSelf "P" "A" 10 60 300).started_at =
      (heartbeatData envSelf "P" "A" 10 50 300).started_at := by
  have h := heartbeat_refresh_monotone envSelf "P" "A"
    { agent := "A", project := "P", started_at := some 10,
      expiresField := .good 100, pid := some 100 }
    10 100 50 60 300 rfl rfl (by decide) (by decide) (by decide) (by decide)
  exact ⟨h.1, h.2.1, h.2.2.1, h.2.2.2.1, h.2.2.2.2.1, h.2.2.2.2.2⟩

/-! ## Fast-read store (database.py) -/

/-- A row of the `projects` table (looked up by `human_key` or `slug`). -/
structure Project where
  id : Int
  human_key : String
  slug : String
deriving DecidableEq, Repr

/-- A row of the `agents` table (the columns the delete path touches). -/
structure AgentRow where
  id : Int
  project_id : Int
  name : String
deriving DecidableEq, Repr

/-- A row of the `messages` table (the columns the delete path touches). -/
structure MessageRow where
  id : Int
  project_id : Int
  sender_id : Int
deriving DecidableEq, Repr

/-- A row of the `message_recipients` table. -/
structure RecipientRow where
  message_id : Int
  agent_id : Int
  read_ts : Option Int
  ack_ts : Option Int
deriving DecidableEq, Repr

/-- A row of the `file_reservations` table (the columns the dependency and
delete paths touch). -/
structure ReservationRow where
  id : Int
  project_id : Int
  agent_id : Int
  released_ts : Option Int
  expires_ts : Option Int
deriving DecidableEq, Repr

/-- A row of the `agent_links` (contact links) table. -/
structure LinkRow where
  a_agent_id : Int
  b_agent_id : Int
deriving DecidableEq, Repr

/-- The SQLite database state visible to `database.py`. -/
structure DB where
  projects : List Project
  agents : List AgentRow
  messages : List MessageRow
  message_recipients : List RecipientRow
  file_reservations : List ReservationRow
  agent_links : List LinkRow
deriving DecidableEq, Repr

/-- Embedding of `_get_project_id` (database.py lines 38-45):
`SELECT id FROM projects WHERE human_key = ? OR slug = ? LIMIT 1`. -/
def get_project_id (db : DB) (key : String) : Option Int :=
  (db.projects.find? (fun p => p.human_key == key || p.slug == key)).map (·.id)

/-- Embedding of `_get_agent_id` (database.py lines 47-54):
`SELECT id FROM agents WHERE project_id = ? AND name = ? LIMIT 1`. -/
def get_agent_id (db : DB) (projectId : Int) (name : String) : Option Int :=
  (db.agents.find? (fun a => a.project_id == projectId && a.name == name)).map (·.id)

/-- Python truthiness of the `if not project_id` / `if not agent_id`
guards: `None` and `0` are falsy. -/
def pyFalsy : Option Int → Bool
  | none => true
  | some n => n == 0

/-- The typed errors raised by the fast-read store (`ValueError`s in
database.py, classified by the spec's taxonomy). -/
inductive DbError where
  | projectNotFound (key : String)
  | agentNotFound (name : String)
  | dependencyConflict (name : String) (unread active : Nat)
deriving DecidableEq, Repr

/-- The dependency snapshot `agent_dependencies` returns. -/
structure Deps where
  agent_id : Int
  unread_messages : Nat
  active_reservations : Nat
  sent_messages : Nat
  can_delete : Bool
deriving DecidableEq, Repr

/-- The unread-message count of `agent_dependencies`:
`SELECT COUNT(*) FROM message_recipients mr JOIN messages m ON
mr.message_id = m.id WHERE mr.agent_id = ? AND mr.read_ts IS NULL`
(the join keeps only recipient rows whose message row exists). -/
def countUnread (db : DB) (aid : Int) : Nat :=
  (db.message_recipients.filter (fun r =>
    r.agent_id == aid && r.read_ts == none &&
      db.messages.any (fun m => m.id == r.message_id))).length

/-- The SQL activity condition of `agent_dependencies`:
`released_ts IS NULL AND (expires_ts IS NULL OR expires_ts >
datetime('now'))`. -/
def reservationActive (now : Int) (r : ReservationRow) : Bool :=
  r.released_ts == none &&
    (match r.expires_ts with
     | none => true
     | some e => now < e)

/-- The active-reservation count of `agent_dependencies`. -/
def countActive (db : DB) (now aid : Int) : Nat :=
  (db.file_reservations.filter (fun r =>
    r.agent_id == aid && reservationActive now r)).length

/-- The sent-message count of `agent_dependencies`:
`SELECT COUNT(*) FROM messages WHERE sender_id = ?`. -/
def countSent (db : DB) (aid : Int) : Nat :=
  (db.messages.filter (fun m => m.sender_id == aid)).length

/-- Embedding of `agent_dependencies` (database.py lines 232-277): resolves
project then agent (raising `ValueError` naming the missing key when either
lookup is falsy), then computes the derived snapshot with
`can_delete = (unread_messages == 0 and active_reservations == 0)`. -/
def agent_dependencies (db : DB) (now : Int) (key name : String) :
    Except DbError Deps :=
  let pid? := get_project_id db key
  if pyFalsy pid? then .error (.projectNotFound key)
  else
    let pid := pid?.getD 0
    let aid? := get_agent_id db pid name
    if pyFalsy aid? then .error (.agentNotFound name)
    else
      let aid := aid?.getD 0
      .ok { agent_id := aid,
            unread_messages := countUnread db aid,
            active_reservations := countActive db now aid,
            sent_messages := countSent db aid,
            can_delete := countUnread db aid == 0 && countActive db now aid == 0 }

/-- The result dictionary of `delete_agent`. -/
structure DelResult where
  deleted : Bool
  agent_name : String
  released_reservations : Nat
  removed_recipient_entries : Nat
  removed_links : Nat
  orphaned_sent_messages : Nat
deriving DecidableEq, Repr

/-- Embedding of `delete_agent` (database.py lines 279-341): computes the
dependency snapshot over a read-only connection and raises the dependency
conflict (carrying the counts) before any read-write connection is opened
when `can_delete` is false and `force` is not set; otherwise, over a
read-write connection, sets `released_ts = now` on the agent's unreleased
reservations, deletes the agent's `message_recipients` rows (messages kept),
deletes the contact links naming the agent on either side, and finally runs
`DELETE FROM agents WHERE id = ?`, removing the agent row itself. The pair
returned is the command outcome together with the (possibly unchanged)
database state. -/
def delete_agent (db : DB) (now : Int) (key name : String) (force : Bool) :
    Except DbError DelResult × DB :=
  match agent_dependencies db now key name with
  | .error e => (.error e, db)
  | .ok deps =>
    if !deps.can_delete && !force then
      (.error (.dependencyConflict name deps.unread_messages
        deps.active_reservations), db)
    else
      let aid := deps.agent_id
      let released := (db.file_reservations.filter (fun r =>
        r.agent_id == aid && r.released_ts == none)).length
      let newReservations := db.file_reservations.map (fun r =>
        if r.agent_id == aid && r.released_ts == none then
          { r with released_ts := some now }
        else r)
      let removedRecipients := (db.message_recipients.filter (fun r =>
        r.agent_id == aid)).length
      let keptRecipients := db.message_recipients.filter (fun r =>
        !(r.agent_id == aid))
      let removedLinks := (db.agent_links.filter (fun l =>
        l.a_agent_id == aid || l.b_agent_id == aid)).length
      let keptLinks := db.agent_links.filter (fun l =>
        !(l.a_agent_id == aid || l.b_agent_id == aid))
      let keptAgents := db.agents.filter (fun a => !(a.id == aid))
      (.ok { deleted := true, agent_name := name,
             released_reservations := released,
             removed_recipient_entries := removedRecipients,
             removed_links := removedLinks,
             orphaned_sent_messages := deps.sent_messages },
       { db with file_reservations := newReservations,
                 message_recipients := keptRecipients,
                 agent_links := keptLinks,
                 agents := keptAgents })

/-- Restatement of the spec's activity condition in its own words: a
reservation counts as active iff its `released_ts` is null and its
`expires_ts` is null or in the future. -/
def specActiveReservation (now : Int) (r : ReservationRow) : Bool :=
  r.released_ts == none &&
    (r.expires_ts == none || r.expires_ts.any (fun e => now < e))

/-- Helper: whether a fast-read-store call returned a snapshot. -/
def depsOk : Except DbError Deps → Bool
  | .ok _ => true
  | .error _ => false

lemma reservationActive_eq_spec (now : Int) (r : ReservationRow) :
    reservationActive now r = specActiveReservation now r := by
  unfold reservationActive specActiveReservation
  cases h : r.expires_ts <;> simp [h, Option.any]

/-- Claim C5: whenever `agent_dependencies` returns a snapshot, its
`can_delete` is true iff `unread_messages = 0` and
`active_reservations = 0`, and `active_reservations` counts exactly the
agent's reservations that are active in the spec's sense (null
`released_ts`, and `expires_ts` null or in the future); when project and
agent both resolve the call does return a snapshot; and when the project
(or, with the project resolved, the agent) is absent the call fails with
the NotFound error naming the missing key. -/
theorem agent_dependencies_snapshot (db : DB) (now : Int) (key name : String) :
    (∀ deps, agent_dependencies db now key name = .ok deps →
      ((deps.can_delete = true) ↔
        (deps.unread_messages = 0 ∧ deps.active_reservations = 0)) ∧
      deps.active_reservations = (db.file_reservations.filter (fun r =>
        r.agent_id == deps.agent_id && specActiveReservation now r)).length) ∧
    (∀ pid aid, get_project_id db key = some pid → pid ≠ 0 →
      get_agent_id db pid name = some aid → aid ≠ 0 →
      depsOk (agent_dependencies db now key name) = true) ∧
    (get_project_id db key = none →
      agent_dependencies db now key name = .error (.projectNotFound key)) ∧
    (∀ pid, get_project_id db key = some pid → pid ≠ 0 →
      get_agent_id db pid name = none →
      agent_dependencies db now key name = .error (.agentNotFound name)) := by
  refine ⟨?_, ?_, ?_, ?_⟩
  · intro deps h
    unfold agent_dependencies at h
    by_cases hp : pyFalsy (get_project_id db key) = true
    · simp [hp] at h
    · by_cases ha : pyFalsy (get_agent_id db ((get_project_id db key).getD 0) name) = true
      · simp [hp, ha] at h
      · simp [hp, ha] at h
        subst h
        constructor
        · simp [Nat.beq_eq_true_eq]
        · simp only [countActive, reservationActive_eq_spec]
  · intro pid aid hpid hpid0 haid haid0
    unfold agent_dependencies
    have hp : pyFalsy (get_project_id db key) = false := by
      simp [hpid, pyFalsy, hpid0]
    have ha : pyFalsy (get_agent_id db ((get_project_id db key).getD 0) name) = false := by
      simp [hpid, haid, pyFalsy, haid0]
    simp [hp, ha, depsOk]
  · intro hnone
    unfold agent_dependencies
    simp [hnone, pyFalsy]
  · intro pid hpid hpid0 haid
    unfold agent_dependencies
    have hp : pyFalsy (get_project_id db key) = false := by
      simp [hpid, pyFalsy, hpid0]
    simp [hp, hpid, haid, pyFalsy, hpid0]

/-- A concrete database: project 1 (key "P"), agents A (id 7) and B (id 8),
a message 100 sent by A and a message 101 sent by B, A a read recipient of
101, B an unread recipient of 100, an unexpired unreleased reservation for
A and a never-expiring one for B, and one contact link between them. -/
def dbMain : DB :=
  { projects := [{ id := 1, human_key := "P", slug := "p-slug" }],
    agents := [{ id := 7, project_id := 1, name := "A" },
               { id := 8, project_id := 1, name := "B" }],
    messages := [{ id := 100, project_id := 1, sender_id := 7 },
                 { id := 101, project_id := 1, sender_id := 8 }],
    message_recipients :=
      [{ message_id := 101, agent_id := 7, read_ts := some 5, ack_ts := none },
       { message_id := 100, agent_id := 8, read_ts := none, ack_ts := none }],
    file_reservations :=
      [{ id := 1, project_id := 1, agent_id := 7, released_ts := none,
         expires_ts := some 1000 },
       { id := 2, project_id := 1, agent_id := 8, released_ts := none,
         expires_ts := none }],
    agent_links := [{ a_agent_id := 7, b_agent_id := 8 }] }

/-- The snapshot `agent_dependencies` computes for agent A of `dbMain`
at time 50: no unread messages, one active reservation, one sent message,
deletion blocked. -/
def depsA : Deps :=
  { agent_id := 7, unread_messages := 0, active_reservations := 1,
    sent_messages := 1, can_delete := false }

/-- Instance of `agent_dependencies_snapshot` on the concrete `dbMain`. -/
theorem agent_dependencies_snapshot_witness :
    ((depsA.can_delete = true) ↔
      (depsA.unread_messages = 0 ∧ depsA.active_reservations = 0)) ∧
    depsA.active_reservations = (dbMain.file_reservations.filter (fun r =>
      r.agent_id == depsA.agent_id && specActiveReservation 50 r)).length :=
  (agent_dependencies_snapshot dbMain 50 "P" "A").1 depsA rfl

/-- Claim C10: when the snapshot blocks deletion (`can_delete = false`)
and `force` is not given, `delete_agent` fails with the dependency
conflict carrying the snapshot's counts and the database is returned
completely unchanged: the error is raised before the read-write
connection is opened. -/
theorem delete_agent_precondition_atomic (db : DB) (now : Int)
    (key name : String) (deps : Deps)
    (h : agent_dependencies db now key name = .ok deps)
    (hc : deps.can_delete = false) :
    (delete_agent db now key name false).1 =
      .error (.dependencyConflict name deps.unread_messages
        deps.active_reservations) ∧
    (delete_agent db now key name false).2 = db := by
  unfold delete_agent
  rw [h]
  simp [hc]

/-- Attempting to delete agent B of `dbMain` (one unread message and one
active reservation) without force: the dependency conflict is reported and
the database is unchanged. -/
theorem delete_agent_precondition_atomic_witness :
    (delete_agent dbMain 50 "P" "B" false).1 =
      .error (.dependencyConflict "B" 1 1) ∧
    (delete_agent dbMain 50 "P" "B" false).2 = dbMain :=
  delete_agent_precondition_atomic dbMain 50 "P" "B"
    { agent_id := 8, unread_messages := 1, active_reservations := 1,
      sent_messages := 1, can_delete := false }
    (by rfl) rfl

/-- Claim C2: deleting agent A of `dbMain` with force releases its one
unreleased reservation (`released_ts` set to now = 50), removes its
message-recipient row while every message row is preserved (the one sent
message is counted as orphaned, not deleted), and removes the contact
link — but the final step is `DELETE FROM agents`: A's row is gone from
the agents table (only B remains), instead of being retained under a
`Deleted-<n>` name with a blocking contact policy. -/
theorem delete_agent_removes_row :
    (delete_agent dbMain 50 "P" "A" true).1 =
      .ok { deleted := true, agent_name := "A", released_reservations := 1,
            removed_recipient_entries := 1, removed_links := 1,
            orphaned_sent_messages := 1 } ∧
    (delete_agent dbMain 50 "P" "A" true).2.messages = dbMain.messages ∧
    (delete_agent dbMain 50 "P" "A" true).2.file_reservations =
      [{ id := 1, project_id := 1, agent_id := 7, released_ts := some 50,
         expires_ts := some 1000 },
       { id := 2, project_id := 1, agent_id := 8, released_ts := none,
         expires_ts := none }] ∧
    (delete_agent dbMain 50 "P" "A" true).2.message_recipients =
      [{ message_id := 100, agent_id := 8, read_ts := none, ack_ts := none }] ∧
    (delete_agent dbMain 50 "P" "A" true).2.agent_links = [] ∧
    (delete_agent dbMain 50 "P" "A" true).2.agents =
      [{ id := 8, project_id := 1, name := "B" }] :=
  ⟨rfl, rfl, rfl, rfl, rfl, rfl⟩

/-! ## The batch `delete` command (cli.py lines 1036-1109)

The command iterates the given agent names sequentially; each iteration's
exception is caught, recorded in `errors`, and the loop continues.
Modelled from the spec: the client-side `delete_agent` glue the command
invokes is not present in `client.py`; per the spec's Fast-Read Store
contract ("perform the mutating delete-agent cascade") it dispatches to
the store's `delete_agent` embedded above. -/

/-- Accumulated state of the delete loop: per-agent success results,
per-agent recorded errors, and the evolving database. -/
structure BatchState where
  results : List DelResult
  errors : List (String × DbError)
  db : DB
deriving DecidableEq, Repr

/-- One iteration of the delete loop (cli.py lines 1063-1097, non-dry-run
branch): a raised error is appended to `errors` without halting; a success
is appended to `results`. -/
def deleteStep (now : Int) (key : String) (force : Bool)
    (st : BatchState) (agent : String) : BatchState :=
  match delete_agent st.db now key agent force with
  | (.ok r, db') => { st with results := st.results ++ [r], db := db' }
  | (.error e, db') => { st with errors := st.errors ++ [(agent, e)], db := db' }

/-- The whole sequential loop of the `delete` command. -/
def deleteBatch (db : DB) (now : Int) (key : String) (agents : List String)
    (force : Bool) : BatchState :=
  agents.foldl (deleteStep now key force) { results := [], errors := [], db := db }

/-- Exit code of the `delete` command (cli.py lines 1099-1105): only the
`--json` branch raises `typer.Exit(1)` when errors were recorded; without
`--json` the command falls through and exits 0 even when entries failed. -/
def deleteCmdExit (st : BatchState) (asJson : Bool) : Nat :=
  if asJson && !st.errors.isEmpty then 1 else 0

/-- A database for the batch scenario: project 1 (key "P"), agents A, B, C
with ids 1, 2, 3; C sent message 10 of which B is an unread recipient;
no reservations or links. -/
def dbBatch : DB :=
  { projects := [{ id := 1, human_key := "P", slug := "p-slug" }],
    agents := [{ id := 1, project_id := 1, name := "A" },
               { id := 2, project_id := 1, name := "B" },
               { id := 3, project_id := 1, name := "C" }],
    messages := [{ id := 10, project_id := 1, sender_id := 3 }],
    message_recipients :=
      [{ message_id := 10, agent_id := 2, read_ts := none, ack_ts := none }],
    file_reservations := [],
    agent_links := [] }

/-- Claim C3: deleting `[A, B, C]` without force where only B has unread
messages processes the agents sequentially, records successes for A and C,
and records exactly one DependencyConflict, for B, carrying B's counts
(1 unread, 0 reservations) — B's failure does not halt C. But the overall
command exits 0, not non-zero, in the default (non `--json`) output mode;
only with `--json` does it exit 1. -/
theorem delete_batch_isolation_exit :
    (deleteBatch dbBatch 50 "P" ["A", "B", "C"] false).results.map
      (fun r => r.agent_name) = ["A", "C"] ∧
    (deleteBatch dbBatch 50 "P" ["A", "B", "C"] false).errors =
      [("B", .dependencyConflict "B" 1 0)] ∧
    deleteCmdExit (deleteBatch dbBatch 50 "P" ["A", "B", "C"] false) false = 0 ∧
    deleteCmdExit (deleteBatch dbBatch 50 "P" ["A", "B", "C"] false) true = 1 :=
  ⟨rfl, rfl, rfl, rfl⟩

/-- A database with a single agent B that has one unread message. -/
def dbSolo : DB :=
  { projects := [{ id := 1, human_key := "P", slug := "p-slug" }],
    agents := [{ id := 2, project_id := 1, name := "B" },
               { id := 3, project_id := 1, name := "C" }],
    messages := [{ id := 10, project_id := 1, sender_id := 3 }],
    message_recipients :=
      [{ message_id := 10, agent_id := 2, read_ts := none, ack_ts := none }],
    file_reservations := [],
    agent_links := [] }

/-- Claim C8: two runs of `delete B` on `dbSolo` that differ only in the
`--json` flag compute the same results, errors and final database state,
yet terminate with different exit codes: 0 without `--json` and 1 with it.
The flag changes the exit code, not only the rendering. -/
theorem delete_json_flag_changes_exit :
    (deleteBatch dbSolo 50 "P" ["B"] false).errors ≠ [] ∧
    deleteCmdExit (deleteBatch dbSolo 50 "P" ["B"] false) false = 0 ∧
    deleteCmdExit (deleteBatch dbSolo 50 "P" ["B"] false) true = 1 ∧
    deleteCmdExit (deleteBatch dbSolo 50 "P" ["B"] false) false ≠
      deleteCmdExit (deleteBatch dbSolo 50 "P" ["B"] false) true :=
  ⟨by decide, rfl, rfl, by decide⟩

/-! ## The `context` aggregator (cli.py lines 828-975)

Each remote-store fetch is wrapped in its own `try/except Exception`, so
its outcome is modelled as an `Except Unit` value supplied by the
environment. The `bd` subprocess helper `_run_bd_command` catches exactly
`TimeoutExpired`, `FileNotFoundError` and `JSONDecodeError`. Timestamps
are integers, as elsewhere. -/

/-- Embedding of `_format_time_ago` (cli.py lines 663-683) on an
already-parsed timestamp. -/
def format_time_ago (now ts : Int) : String :=
  let seconds := now - ts
  if seconds < 60 then "just now"
  else if seconds < 3600 then toString (seconds / 60) ++ "m ago"
  else if seconds < 86400 then toString (seconds / 3600) ++ "h ago"
  else toString (seconds / 86400) ++ "d ago"

/-- Zero-padding of `{n:02d}` for the non-negative components below. -/
def pad2 (n : Int) : String :=
  if n < 10 then "0" ++ toString n else toString n

/-- Embedding of `_fmt_delta` (cli.py lines 1189-1204) on an
already-parsed expiry timestamp: signed `hh:mm:ss` until expiry. -/
def fmt_delta (now e : Int) : String :=
  let total := e - now
  let sign := if total < 0 then "-" else ""
  let t := if total < 0 then -total else total
  sign ++ pad2 (t / 3600) ++ ":" ++ pad2 (t % 3600 / 60) ++ ":" ++ pad2 (t % 60)

/-- The fields `context` reads from a `whois` profile. -/
structure ProfileInfo where
  name : Option String
  last_active_ts : Option String
  task_description : Option String
  recent_commits : List String
deriving DecidableEq, Repr

/-- The `agent` section of the context snapshot: either the mapped profile
or the `{"name": agent, "error": "Could not fetch profile"}` placeholder. -/
inductive ContextAgent where
  | info (name : Option String) (last_active : Option String)
      (task : Option String) (commits : List String)
  | fetchError (name : String)
deriving DecidableEq, Repr

/-- An inbox message as fetched for `context`. -/
structure InboxMsg where
  id : Int
  sender : String
  subject : String
  importance : String
  created_ts : Int
deriving DecidableEq, Repr

/-- The mapped entry of `messages.unread`. -/
structure MsgSummary where
  id : Int
  sender : String
  subject : String
  importance : String
  age : String
deriving DecidableEq, Repr

/-- A pending-acknowledgement row and its mapped entry
(`{id, from, subject}`). -/
structure AckMsg where
  id : Int
  sender : String
  subject : String
deriving DecidableEq, Repr

/-- A file-reservation row as fetched for `context`. -/
structure ResvInfo where
  agent : String
  path_pattern : String
  expires_ts : Option Int
deriving DecidableEq, Repr

/-- The mapped entry of `files.reserved`. -/
structure ResvSummary where
  pattern : String
  expires_in : String
deriving DecidableEq, Repr

/-- A beads issue as parsed from `bd` JSON output. -/
structure BdItem where
  id : String
  title : String
  priority : Int
  blocked_by : List String
deriving DecidableEq, Repr

/-- The mapped entry of `beads.in_progress` (`{id, title, priority}`). -/
structure BdProgSummary where
  id : String
  title : String
  priority : Int
deriving DecidableEq, Repr

/-- The mapped entry of `beads.blocked` (`{id, title, blocked_by}`). -/
structure BdBlockedSummary where
  id : String
  title : String
  blocked_by : List String
deriving DecidableEq, Repr

/-- The parsed JSON value of a `bd` run: a JSON list of issues, or valid
JSON of another shape (skipped by the `isinstance(..., list)` guard). -/
inductive BdValue where
  | jlist (items : List BdItem)
  | nonList
deriving DecidableEq, Repr

/-- Outcome of one `bd` subprocess invocation: timed out
(`TimeoutExpired`), executable absent (`FileNotFoundError`), exit 0 with
unparsable stdout (`JSONDecodeError`), some other exception (uncaught by
`_run_bd_command`), or a completed run with its exit code, stdout
emptiness and parsed value. -/
inductive BdOutcome where
  | timeout
  | notFound
  | badJson
  | raisedOther
  | ran (returncode : Int) (stdoutEmpty : Bool) (value : BdValue)
deriving DecidableEq, Repr

/-- Embedding of `_run_bd_command` (cli.py lines 828-843): the three
listed exceptions yield `None`; any other exception escapes; a completed
run yields the parsed JSON only when the exit code is 0 and stdout is
non-empty. -/
def run_bd_command : BdOutcome → Except Unit (Option BdValue)
  | .timeout => .ok none
  | .notFound => .ok none
  | .badJson => .ok none
  | .raisedOther => .error ()
  | .ran code empty v => .ok (if code == 0 && !empty then some v else none)

/-- The `attention_needed` summary of the context snapshot. -/
structure Attention where
  unread_messages : Nat
  pending_acks : Nat
  blocked_tasks : Nat
deriving DecidableEq, Repr

/-- The assembled context snapshot (`context_data` of cli.py). -/
structure ContextData where
  agent : ContextAgent
  attention : Attention
  unread : List MsgSummary
  pending_acks : List AckMsg
  reserved : List ResvSummary
  beads_in_progress : List BdProgSummary
  beads_blocked : List BdBlockedSummary
deriving DecidableEq, Repr

/-- Source 1 of `context` (cli.py lines 893-902): the agent profile, with
the error placeholder naming the requested agent on failure. -/
def agentSection (agentName : String) (w : Except Unit ProfileInfo) :
    ContextAgent :=
  match w with
  | .ok p => .info p.name p.last_active_ts p.task_description
      (p.recent_commits.take 3)
  | .error _ => .fetchError agentName

/-- Source 2 of `context` (cli.py lines 905-919): the mapped unread list,
empty on failure. -/
def unreadSection (now : Int) (i : Except Unit (List InboxMsg)) :
    List MsgSummary :=
  match i with
  | .ok ms => ms.map (fun m =>
      { id := m.id, sender := m.sender, subject := m.subject,
        importance := m.importance, age := format_time_ago now m.created_ts })
  | .error _ => []

/-- The unread count set alongside source 2 (`len(inbox)`). -/
def unreadCount (i : Except Unit (List InboxMsg)) : Nat :=
  match i with
  | .ok ms => ms.length
  | .error _ => 0

/-- Source 3 of `context` (cli.py lines 922-934): pending acks, empty on
failure. -/
def acksSection (k : Except Unit (List AckMsg)) : List AckMsg :=
  match k with
  | .ok as => as.map (fun a =>
      { id := a.id, sender := a.sender, subject := a.subject })
  | .error _ => []

/-- The pending-ack count set alongside source 3 (`len(acks)`). -/
def acksCount (k : Except Unit (List AckMsg)) : Nat :=
  match k with
  | .ok as => as.length
  | .error _ => 0

/-- Source 4 of `context` (cli.py lines 937-948): the agent's own active
reservations with expiry countdowns (`"?"` when `expires_ts` is absent),
empty on failure. -/
def reservedSection (now : Int) (agentName : String)
    (r : Except Unit (List ResvInfo)) : List ResvSummary :=
  match r with
  | .ok rs => (rs.filter (fun x => x.agent == agentName)).map (fun x =>
      { pattern := x.path_pattern,
        expires_in := match x.expires_ts with
          | some e => fmt_delta now e
          | none => "?" })
  | .error _ => []

/-- The `beads.in_progress` section (cli.py lines 951-960): populated only
when the `bd` run yields a truthy JSON list; first five items mapped. -/
def beadsProgSection (v : Option BdValue) : List BdProgSummary :=
  match v with
  | some (.jlist items) =>
    if items.isEmpty then []
    else (items.take 5).map (fun b =>
      { id := b.id, title := b.title, priority := b.priority })
  | _ => []

/-- The `beads.blocked` section and its attention count (cli.py lines
962-972): first five items mapped, `blocked_tasks` the FULL list length;
both zero unless the run yields a truthy JSON list. -/
def beadsBlockedSection (v : Option BdValue) :
    List BdBlockedSummary × Nat :=
  match v with
  | some (.jlist items) =>
    if items.isEmpty then ([], 0)
    else ((items.take 5).map (fun b =>
      { id := b.id, title := b.title, blocked_by := b.blocked_by }),
      items.length)
  | _ => ([], 0)

/-- Embedding of the `context` command body (cli.py lines 846-975): the
four remote sources are fetched with isolated `try/except Exception`
handling, then the two `bd` invocations run outside any handler, so only
an exception that `_run_bd_command` lets escape aborts the snapshot. -/
def buildContext (now : Int) (agentName : String)
    (w : Except Unit ProfileInfo) (i : Except Unit (List InboxMsg))
    (k : Except Unit (List AckMsg)) (r : Except Unit (List ResvInfo))
    (bdProg bdBlocked : BdOutcome) : Except Unit ContextData :=
  match run_bd_command bdProg with
  | .error e => .error e
  | .ok p =>
    match run_bd_command bdBlocked with
    | .error e => .error e
    | .ok b =>
      let (blockedList, blockedCount) := beadsBlockedSection b
      .ok { agent := agentSection agentName w,
            attention := { unread_messages := unreadCount i,
                           pending_acks := acksCount k,
                           blocked_tasks := blockedCount },
            unread := unreadSection now i,
            pending_acks := acksSection k,
            reserved := reservedSection now agentName r,
            beads_in_progress := beadsProgSection p,
            beads_blocked := blockedList }

/-- Claim C9: when each `bd` invocation fails in one of the three
tolerated ways (executable absent, timeout, unparsable output), the
context command does not raise: it returns a snapshot whose `agent`,
`messages` and `files` sections are computed from their own sources alone
(error placeholders when that source itself failed) and whose `beads`
sections are empty with a zero blocked count — for every combination of
outcomes of the four remote sources. -/
theorem context_bd_failure_isolated (now : Int) (agentName : String)
    (w : Except Unit ProfileInfo) (i : Except Unit (List InboxMsg))
    (k : Except Unit (List AckMsg)) (r : Except Unit (List ResvInfo))
    (b₁ b₂ : BdOutcome)
    (h₁ : b₁ = .notFound ∨ b₁ = .timeout ∨ b₁ = .badJson)
    (h₂ : b₂ = .notFound ∨ b₂ = .timeout ∨ b₂ = .badJson) :
    buildContext now agentName w i k r b₁ b₂ =
      .ok { agent := agentSection agentName w,
            attention := { unread_messages := unreadCount i,
                           pending_acks := acksCount k,
                           blocked_tasks := 0 },
            unread := unreadSection now i,
            pending_acks := acksSection k,
            reserved := reservedSection now agentName r,
            beads_in_progress := [],
            beads_blocked := [] } := by
  rcases h₁ with h | h | h <;> rcases h₂ with h' | h' | h' <;>
    subst h <;> subst h' <;> rfl

/-- `context` with all four remote sources succeeding and `bd` absent:
populated agent, messages and files sections; empty beads. -/
theorem context_bd_failure_isolated_witness :
    buildContext 100 "A"
        (.ok { name := some "A", last_active_ts := some "t",
               task_description := some "task", recent_commits := [] })
        (.ok [{ id := 1, sender := "B", subject := "hi",
                importance := "normal", created_ts := 70 }])
        (.ok [{ id := 2, sender := "B", subject := "ack me" }])
        (.ok [{ agent := "A", path_pattern := "src/x.py",
                expires_ts := some 160 }])
        .notFound .notFound =
      .ok { agent := .info (some "A") (some "t") (some "task") [],
            attention := { unread_messages := 1, pending_acks := 1,
                           blocked_tasks := 0 },
            unread := [{ id := 1, sender := "B", subject := "hi",
                         importance := "normal", age := "just now" }],
            pending_acks := [{ id := 2, sender := "B", subject := "ack me" }],
            reserved := [{ pattern := "src/x.py", expires_in := "00:01:00" }],
            beads_in_progress := [],
            beads_blocked := [] } := by
  have h := context_bd_failure_isolated 100 "A"
    (.ok { name := some "A", last_active_ts := some "t",
           task_description := some "task", recent_commits := [] })
    (.ok [{ id := 1, sender := "B", subject := "hi",
            importance := "normal", created_ts := 70 }])
    (.ok [{ id := 2, sender := "B", subject := "ack me" }])
    (.ok [{ agent := "A", path_pattern := "src/x.py",
            expires_ts := some 160 }])
    .notFound .notFound (Or.inl rfl) (Or.inl rfl)
  rw [h]
  rfl

end AgentMail
